import Mathlib

/-!
Verification of the GI paper-writing tool's conditional field-routing engine.

The development shallowly embeds the Python sources:
* `updated_conditional_processor.py` (`ConditionalFormProcessor`),
* `modules/data_processor.py` (`DataProcessor.extract_paper_sections_data`,
  `GoogleFormProcessor`, `GoogleSheetsProcessor.get_form_responses`),
* `analyze_google_sheets.py` (the static form-structure registry),
* the error dispatch of `ui/server.py`.

Strings are modelled as Lean `String`s (lists of characters); pandas cells are
`Option String`, with `none` standing for a missing value (`NaN`); Python dicts
are association lists with insertion-order preserving overwrite.
-/

/-! ## Definitions: Python string primitives -/

/-- ASCII lowercasing of one character, the behaviour of Python's `str.lower`
on the ASCII letters that occur in the form labels; other characters are kept. -/
def pyLowerChar (c : Char) : Char :=
  if c.isUpper then Char.ofNat (c.toNat + 32) else c
/-- Python `s.lower()` on a list of characters. -/
def pyLower (l : List Char) : List Char := l.map pyLowerChar
/-- Python `s.replace(a, b)` for single characters `a`, `b`. -/
def pyReplaceC (a b : Char) (l : List Char) : List Char :=
  l.map fun c => if c = a then b else c
/-- Python `s.replace(a, "")` for a single character `a`. -/
def pyDropC (a : Char) (l : List Char) : List Char :=
  l.filter fun c => c ≠ a
/-- Python `s.replace(a, r)` for a single character `a` and a string `r`. -/
def pyReplaceS (a : Char) (r : List Char) : List Char → List Char
  | [] => []
  | c :: cs => (if c = a then r else [c]) ++ pyReplaceS a r cs
/-- The key normalizer of `ConditionalFormProcessor.extract_conditional_data`:
`field.lower().replace(" ", "_").replace("(", "").replace(")", "")
.replace("[", "").replace("]", "").replace("?", "").replace("/", "_")
.replace("&", "and")`, applied to a character list. -/
def normKeyL (l : List Char) : List Char :=
  pyReplaceS '&' ['a', 'n', 'd']
    (pyReplaceC '/' '_'
      (pyDropC '?'
        (pyDropC ']'
          (pyDropC '['
            (pyDropC ')'
              (pyDropC '('
                (pyReplaceC ' ' '_' (pyLower l))))))))
/-- The key normalizer on strings. -/
def normKey (s : String) : String := String.mk (normKeyL s.data)
/-- Python `str.isspace` for the whitespace characters relevant here. -/
def pySpace (c : Char) : Bool := c = ' ' || c = '\t' || c = '\n' || c = '\r'
/-- Python `s.strip()` on a character list. -/
def pyStripL (l : List Char) : List Char :=
  ((l.dropWhile pySpace).reverse.dropWhile pySpace).reverse
/-- Python `s.strip()`. -/
def pyStrip (s : String) : String := String.mk (pyStripL s.data)
/-- Python substring containment `sub in s` on character lists. -/
def isSubL (sub : List Char) : List Char → Bool
  | [] => sub.isEmpty
  | c :: cs => sub.isPrefixOf (c :: cs) || isSubL sub cs
/-- Python substring containment `sub in s` on strings. -/
def pyInStr (sub s : String) : Bool := isSubL sub.data s.data
/-- A character that every normalizing pass leaves alone: not an ASCII capital,
not a space, and none of the stripped or substituted punctuation marks. -/
def goodChar (c : Char) : Prop :=
  c.isUpper = false ∧ c ≠ ' ' ∧ c ≠ '(' ∧ c ≠ ')' ∧ c ≠ '[' ∧ c ≠ ']' ∧
    c ≠ '?' ∧ c ≠ '/' ∧ c ≠ '&'
/-! ## Definitions: the schema registry of analyze_google_sheets.py -/

def universal_sections : List String := [
  "Timestamp",
  "Email Address",
  "Applicant/Orginization Name",
  "Applicant Type (Can be more than one option)",
  "Gmail ID",
  "Phone Number (With country code)",
  "Complete Address",
  "Product Name ( Exact name you want to register for GI protection)",
  "Common/Local Names (All alternative names by which this product is known locally)",
  "Region of Origin",
  "State/Province (Primary state or province of production)",
  "Production Districts (List all districts involved in traditional production)",
  "Specific Geographic Boundaries [Exact boundaries of the geographical area (villages, taluks, coordinates if available)]",
  "Why is this product special to this region? (Explain the connection between geography and product uniqueness)",
  "Select Product Category"]
def agriculturalFields : List String := [
  "Crop/Plant Type (Scientific name and variety of the plant/crop)",
  "Physical Characteristics( Describe size, color, shape, texture of the agricultural product )",
  "Taste & Aroma Profile (Detailed description of taste, flavor, and aromatic properties)",
  "Nutritional Properties (Nutritional content, vitamins, minerals, and health benefits)",
  "Harvest Season [When is the product typically harvested? (months/seasons)]",
  "Soil Requirements (Specific soil type, pH, and conditions needed for cultivation)",
  "Climate Requirements ( Temperature, rainfall, humidity requirements for optimal growth )",
  "Traditional Growing Methods (Traditional cultivation practices passed down through generations)",
  "Seeds/Planting Material (Source and characteristics of traditional seeds or planting material used)",
  "Natural Pest Control (Traditional methods of pest and disease management)",
  "Post-Harvest Processing [Steps taken immediately after harvest (drying, cleaning, sorting)]",
  "Traditional Storage Methods ( How the product is traditionally stored and preserved)",
  "Quality Grading (Traditional methods of quality assessment and grading)",
  "Average Yield per Acre (Typical production quantity per unit area)",
  "Total Annual Production (Total quantity produced annually in the region)",
  "Number of Farmers Involved (Approximate number of farmers/producers in the region)",
  "Price Premium ( How much more does this product sell for compared to similar products from other regions?)",
  "Export Markets (Countries/regions where this product is exported)",
  "Farmer Income Impact (How has this product improved farmer incomes and livelihoods?)"]
def foodFields : List String := [
  "Food Category",
  "Main Ingredients (List all primary ingredients and their sources)",
  "Taste Profile (Detailed description of taste, texture, and sensory characteristics)",
  "Nutritional Benefits (Health benefits, nutritional content, medicinal properties if any)",
  "Shelf Life ( How long does the product stay fresh under normal conditions?)",
  "Traditional Recipe ( Detailed traditional recipe or preparation method )",
  "Secret/Special Techniques (Any unique techniques or secrets that make this product special)",
  "Traditional Equipment ( Special equipment, utensils, or tools used in preparation)",
  "Aging/Fermentation Process (If applicable, describe aging, fermentation, or curing processes)",
  "Quality Control in Preparation ( How is quality maintained during preparation?)",
  "Local Raw Materials (Which ingredients must come from the specific geographical region?)",
  "Seasonal Availability (How does seasonality affect availability of ingredients and production?)",
  "Traditional Suppliers (Who are the traditional suppliers of raw materials?)",
  "Festival/Ceremonial Use (Is this food associated with specific festivals, ceremonies, or cultural events?)",
  "Traditional Consumption Patterns  (How and when is this food traditionally consumed?)",
  "Cultural Stories/Legends (Any cultural stories, legends, or folklore associated with this food)",
  "Daily/Monthly Production  (Typical production quantities per day or month)",
  "Number of Traditional Producers (How many families/businesses are involved in traditional production?)",
  "Market Reach (Local, regional, national, or international market presence)"]
def handicraftFields : List String := [
  "Type of Handicraft",
  "Product Dimensions (Typical size and dimensions of the finished product)",
  "Materials Used  (All raw materials used and their local sources)",
  "Distinctive Design Features (What makes the design unique to this region?)",
  "Functional Use ( How is this product used in daily life or special occasions?)",
  "Manufacturing Process (Step-by-step description of the traditional making process)",
  "Special Tools & Equipment (Traditional tools and equipment used by artisans)",
  "Skill Requirements (What specific skills and training do artisans need?)",
  "Time to Create (How long does it take to create one piece?)",
  "Design Patterns/Motifs (Traditional patterns, motifs, or designs that are characteristic of the region)",
  "Number of Active Artisans (How many artisans are currently practicing this craft?)",
  "Community Background ( Which communities/families have traditionally practiced this craft?)",
  "Skill Transfer Method (How are skills passed down to new generations?)",
  "Training Period (How long does it take to train a new artisan?)",
  "Historical Significance (Historical importance and cultural significance of this craft)",
  "Traditional Uses in Society  (How was/is this product used in traditional society?)",
  "Symbolic Meaning (Any symbolic or spiritual significance of the craft)",
  "Production Capacity (How many pieces can an artisan produce per month?)",
  "Price Range  (Typical price range for different sizes/types)",
  "Market Challenges ( What challenges do artisans face in marketing their products?)"]
def textileFields : List String := [
  "Type of Textile*",
  "Fiber Type (Thread count, weight, dimensions, thickness specifications)",
  "Color Palette (Traditional colors used and sources of natural dyes)",
  "Pattern/Design Characteristics (Distinctive patterns, motifs, or design elements)",
  "Traditional Loom Type ( Type of loom used and its characteristics)",
  "Weaving Technique ( Specific weaving techniques and methods used)",
  "Thread Preparation (How are threads prepared, spun, and treated before weaving?)",
  "Dyeing Process (Traditional dyeing methods and natural dye sources)",
  "Time to Complete ( How long does it take to complete one piece?)",
  "Weaver Community ( Which communities have traditionally practiced this weaving?)",
  "Number of Active Weavers (Current number of practicing weavers)",
  "Skill Complexity (Level of skill required and training needed)",
  "Design Creation Process (How are traditional designs created and modified?)",
  "Traditional Uses (How is this textile traditionally used in society?)",
  "Ceremonial Significance (Use in weddings, festivals, or religious ceremonies)",
  "Social Status Indicators ( Does this textile indicate social status or community membership?)",
  "Production per Weaver (Average monthly production per weaver)",
  "Raw Material Costs ( Cost and availability of raw materials)",
  "Market Demand ( Current market demand and customer base)"]
def naturalFields : List String := [
  "Product Type",
  "Source Plant/Material (Scientific name and description of source plant or natural material)",
  "Active Compounds (Key chemical compounds or active ingredients)",
  "Physical Properties (Color, consistency, aroma, and physical characteristics)",
  "Traditional Uses (How has this product been traditionally used?)",
  "Collection Season [ When is the raw material collected? (months/seasons)]",
  "Collection Methods  (Traditional methods of collection or harvesting)",
  "Processing Technique (How is the final product extracted or processed?)",
  "Traditional Equipment (Tools and equipment used in traditional processing)",
  "Quality Assessment (How is quality determined and maintained?)",
  "Habitat Requirements (Specific environmental conditions needed for the source material)",
  "Sustainable Practices (Traditional conservation and sustainability practices)",
  "Seasonal Variations ( How do seasonal changes affect product quality?)",
  "Geographic Specificity (Why can this product only be obtained from this specific region?)",
  "Indigenous Knowledge (Traditional knowledge systems associated with this product)",
  "Community Guardians ( Which communities have traditionally been guardians of this knowledge?)",
  "Traditional Applications (Detailed traditional uses in medicine, cosmetics, or daily life)",
  "Yield per Collection ( Typical quantity obtained per collection/processing cycle)",
  "Market Applications ( Modern commercial applications and uses)",
  "Value Addition Potential (Opportunities for processing into higher-value products)"]
/-- The `conditional_sections` table keyed by the raw category string, with the
empty-list default of `form_structure.get('conditional_sections', {}).get(category, [])`. -/
def conditional_sections (category : String) : List String :=
  if category = "Agricultural Products" then agriculturalFields
  else if category = "Food & Beverages" then foodFields
  else if category = "Handicrafts & Artisanal Products" then handicraftFields
  else if category = "Textiles & Fabrics" then textileFields
  else if category = "Natural Products & Extracts" then naturalFields
  else []
def universal_closing_sections : List String := [
  "Production History (How long has this product been made in this region?)",
  "Historical Documents (Any historical references, documents, or evidence)",
  "Cultural Evolution  (How has production evolved while maintaining traditional character?)",
  "Producer Income (Average annual income per producer from this product )",
  "Employment Generation (Number of people employed directly and indirectly)",
  "Regional Economic Impact (Overall economic contribution to the region)",
  "Current Challenges (Main challenges facing production and marketing)",
  "Growth Potential (Potential for expanding production and markets)",
  "Support Needed ( What support is needed for development?)",
  "Product Photos ( High-quality photos of the product)",
  "Production Process Photos (Photos showing production/making process)",
  "Supporting Documents (Any certificates, awards, research papers, or other evidence)",
  "Applicant Declaration",
  "Unique Application ID [Enter a unique identifier for your application (used for file naming)]"]
/-- All labels of the five conditional pools together. -/
def allConditionalLabels : List String :=
  agriculturalFields ++ foodFields ++ handicraftFields ++ textileFields ++ naturalFields
/-! ## Definitions: dict and response models, router, section mapper, form processor -/

/-- A Python dict of strings, as an association list; keys are unique by
construction and insertion order is preserved. -/
abbrev Dict := List (String × String)
/-- Python `d[k] = v`: overwrite in place if the key exists, append otherwise. -/
def dPut (d : Dict) (k v : String) : Dict :=
  if d.any fun p => p.1 == k then d.map fun p => if p.1 == k then (k, v) else p
  else d ++ [(k, v)]
/-- Python `d.get(k)` / `d[k]` lookup. -/
def dGet (d : Dict) (k : String) : Option String := d.lookup k
/-- Python `d.update(e)`: fold the entries of `e` into `d`. -/
def pyUpdate (d e : Dict) : Dict := e.foldl (fun acc p => dPut acc p.1 p.2) d
/-- A pandas row: form labels mapped to cells, where a `none` cell is a missing
value (`NaN`). -/
abbrev Row := List (String × Option String)
/-- Python `row.get(label, dflt)`. -/
def rowGet (r : Row) (label : String) (dflt : Option String) : Option String :=
  match r.lookup label with
  | some cell => cell
  | none => dflt
/-- Python `str(value)` on a cell: `str` of a pandas `NaN` is `"nan"`. -/
def pyStr (cell : Option String) : String :=
  match cell with
  | some s => s
  | none => "nan"
/-- The guard `pd.notna(value) and str(value).strip()`: the cell is present and
its string form is not whitespace-only. -/
def truthyCell (cell : Option String) : Bool :=
  match cell with
  | some s => !(pyStripL s.data).isEmpty
  | none => false
/-- A plain string-valued response dict (`latest_response` in
`DataProcessor.extract_paper_sections_data`); `respGet` is
`response.get(label, '')`. -/
abbrev Resp := List (String × String)
def respGet (r : Resp) (label : String) : String := (r.lookup label).getD ""
/-- The conditional pool selected by the row's raw `"Select Product Category"`
cell; a missing (`NaN`) category matches no key of the table. -/
def selectedFields (row : Row) : List String :=
  match rowGet row "Select Product Category" (some "") with
  | some s => conditional_sections s
  | none => []
/-- `ConditionalFormProcessor.extract_conditional_data`: walk the selected
category's conditional fields, keep the fields whose cell is present and not
whitespace-only, and store them under normalized keys. -/
def extract_conditional_data (row : Row) : Dict :=
  (selectedFields row).foldl
    (fun d field =>
      let value := rowGet row field (some "")
      if truthyCell value then dPut d (normKey field) (pyStr value) else d)
    []
/-- Materialize one literal section dict from its key/label pairs. -/
def mkSection (spec : List (String × String)) (r : Resp) : Dict :=
  spec.map fun p => (p.1, respGet r p.2)
def categoryLabelFull : String :=
  "Select Product Category \n\nChoose the category that best describes your product"
def giNameLabel : String :=
  " Product Name ( Exact name you want to register for GI protection)"
def abstractSpec : List (String × String) := [
  ("gi_name", giNameLabel),
  ("category", categoryLabelFull),
  ("region", " Region of Origin"),
  ("description", " Physical Characteristics( Describe size, color, shape, texture of the agricultural product )"),
  ("significance", "Why is this product special to this region? (Explain the connection between geography and product uniqueness)")]
def introductionSpec : List (String × String) := [
  ("gi_name", giNameLabel),
  ("category", categoryLabelFull),
  ("region", " Region of Origin"),
  ("state_province", " State/Province (Primary state or province of production)"),
  ("districts", " Production Districts (List all districts involved in traditional production)"),
  ("geographic_boundaries", "Specific Geographic Boundaries [Exact boundaries of the geographical area (villages, taluks, coordinates if available)]"),
  ("historical_background", " Production History (How long has this product been made in this region?)"),
  ("historical_documents", " Historical Documents (Any historical references, documents, or evidence)"),
  ("significance", "Why is this product special to this region? (Explain the connection between geography and product uniqueness)")]
def literatureReviewSpec : List (String × String) := [
  ("gi_name", giNameLabel),
  ("category", categoryLabelFull),
  ("traditional_uses", "Traditional Uses in Society  (How was/is this product used in traditional society?)"),
  ("cultural_significance", " Historical Significance (Historical importance and cultural significance of this craft)"),
  ("symbolic_meaning", "Symbolic Meaning (Any symbolic or spiritual significance of the craft)"),
  ("cultural_stories", "Cultural Stories/Legends (Any cultural stories, legends, or folklore associated with this food)"),
  ("festival_use", "Festival/Ceremonial Use (Is this food associated with specific festivals, ceremonies, or cultural events?)")]
def methodologySpec : List (String × String) := [
  ("gi_name", giNameLabel),
  ("category", categoryLabelFull),
  ("production_process", " Manufacturing Process (Step-by-step description of the traditional making process)"),
  ("traditional_equipment", "Traditional Equipment ( Special equipment, utensils, or tools used in preparation)"),
  ("traditional_techniques", "Secret/Special Techniques (Any unique techniques or secrets that make this product special)"),
  ("quality_control", "Quality Control in Preparation ( How is quality maintained during preparation?)"),
  ("raw_materials", " Local Raw Materials (Which ingredients must come from the specific geographical region?)"),
  ("traditional_suppliers", "Traditional Suppliers (Who are the traditional suppliers of raw materials?)")]
def resultsSpec : List (String × String) := [
  ("gi_name", giNameLabel),
  ("category", categoryLabelFull),
  ("production_capacity", " Production Capacity (How many pieces can an artisan produce per month?)"),
  ("annual_production", "Total Annual Production (Total quantity produced annually in the region)"),
  ("number_of_producers", "Number of Traditional Producers (How many families/businesses are involved in traditional production?)"),
  ("price_range", "Price Range  (Typical price range for different sizes/types)"),
  ("price_premium", " Price Premium ( How much more does this product sell for compared to similar products from other regions?)"),
  ("export_markets", "Export Markets (Countries/regions where this product is exported)"),
  ("market_reach", "Market Reach (Local, regional, national, or international market presence)"),
  ("producer_income", "Producer Income (Average annual income per producer from this product )"),
  ("employment_generation", " Employment Generation (Number of people employed directly and indirectly)"),
  ("regional_impact", "Regional Economic Impact (Overall economic contribution to the region)")]
def conclusionSpec : List (String × String) := [
  ("gi_name", giNameLabel),
  ("category", categoryLabelFull),
  ("current_challenges", " Current Challenges (Main challenges facing production and marketing)"),
  ("market_challenges", "Market Challenges ( What challenges do artisans face in marketing their products?)"),
  ("growth_potential", "Growth Potential (Potential for expanding production and markets)"),
  ("support_needed", "Support Needed ( What support is needed for development?)"),
  ("cultural_evolution", "Cultural Evolution  (How has production evolved while maintaining traditional character?)"),
  ("future_prospects", "Growth Potential (Potential for expanding production and markets)")]
def agMethodologySpec : List (String × String) := [
  ("crop_type", "Crop/Plant Type (Scientific name and variety of the plant/crop)"),
  ("soil_requirements", "Soil Requirements (Specific soil type, pH, and conditions needed for cultivation)"),
  ("climate_requirements", "Climate Requirements ( Temperature, rainfall, humidity requirements for optimal growth )"),
  ("growing_methods", "Traditional Growing Methods (Traditional cultivation practices passed down through generations)"),
  ("seeds_material", " Seeds/Planting Material (Source and characteristics of traditional seeds or planting material used)"),
  ("pest_control", " Natural Pest Control (Traditional methods of pest and disease management)"),
  ("harvest_season", "Harvest Season [When is the product typically harvested? (months/seasons)]"),
  ("post_harvest", " Post-Harvest Processing [Steps taken immediately after harvest (drying, cleaning, sorting)]"),
  ("storage_methods", " Traditional Storage Methods ( How the product is traditionally stored and preserved)"),
  ("yield_per_acre", " Average Yield per Acre (Typical production quantity per unit area)"),
  ("number_of_farmers", "Number of Farmers Involved (Approximate number of farmers/producers in the region)"),
  ("farmer_income_impact", "Farmer Income Impact (How has this product improved farmer incomes and livelihoods?)")]
def agResultsSpec : List (String × String) := [
  ("taste_aroma", "Taste & Aroma Profile (Detailed description of taste, flavor, and aromatic properties)"),
  ("nutritional_properties", " Nutritional Properties (Nutritional content, vitamins, minerals, and health benefits)"),
  ("quality_grading", "Quality Grading (Traditional methods of quality assessment and grading)")]
def foodMethodologySpec : List (String × String) := [
  ("main_ingredients", "Main Ingredients (List all primary ingredients and their sources)"),
  ("traditional_recipe", "Traditional Recipe ( Detailed traditional recipe or preparation method )"),
  ("aging_fermentation", "Aging/Fermentation Process (If applicable, describe aging, fermentation, or curing processes)"),
  ("seasonal_availability", "Seasonal Availability (How does seasonality affect availability of ingredients and production?)")]
def foodResultsSpec : List (String × String) := [
  ("taste_profile", "Taste Profile (Detailed description of taste, texture, and sensory characteristics)"),
  ("nutritional_benefits", "Nutritional Benefits (Health benefits, nutritional content, medicinal properties if any)"),
  ("shelf_life", " Shelf Life ( How long does the product stay fresh under normal conditions?)"),
  ("consumption_patterns", " Traditional Consumption Patterns  (How and when is this food traditionally consumed?)"),
  ("daily_production", " Daily/Monthly Production  (Typical production quantities per day or month)")]
def handicraftMethodologySpec : List (String × String) := [
  ("materials_used", " Materials Used  (All raw materials used and their local sources)"),
  ("special_tools", "Special Tools & Equipment (Traditional tools and equipment used by artisans)"),
  ("skill_requirements", "Skill Requirements (What specific skills and training do artisans need?)"),
  ("time_to_create", "Time to Create (How long does it take to create one piece?)"),
  ("skill_transfer", " Skill Transfer Method (How are skills passed down to new generations?)"),
  ("training_period", "Training Period (How long does it take to train a new artisan?)")]
def handicraftResultsSpec : List (String × String) := [
  ("product_dimensions", " Product Dimensions (Typical size and dimensions of the finished product)"),
  ("design_features", "Distinctive Design Features (What makes the design unique to this region?)"),
  ("functional_use", "Functional Use ( How is this product used in daily life or special occasions?)"),
  ("design_patterns", "Design Patterns/Motifs (Traditional patterns, motifs, or designs that are characteristic of the region)"),
  ("number_of_artisans", "Number of Active Artisans (How many artisans are currently practicing this craft?)"),
  ("community_background", " Community Background ( Which communities/families have traditionally practiced this craft?)")]
def textileMethodologySpec : List (String × String) := [
  ("fiber_type", "Fiber Type (Thread count, weight, dimensions, thickness specifications)"),
  ("traditional_loom", " Traditional Loom Type ( Type of loom used and its characteristics)"),
  ("weaving_technique", "Weaving Technique ( Specific weaving techniques and methods used)"),
  ("thread_preparation", "Thread Preparation (How are threads prepared, spun, and treated before weaving?)"),
  ("dyeing_process", " Dyeing Process (Traditional dyeing methods and natural dye sources) "),
  ("time_to_complete", "Time to Complete ( How long does it take to complete one piece?)")]
def textileResultsSpec : List (String × String) := [
  ("color_palette", " Color Palette (Traditional colors used and sources of natural dyes)"),
  ("pattern_characteristics", "Pattern/Design Characteristics (Distinctive patterns, motifs, or design elements)"),
  ("weaver_community", "Weaver Community ( Which communities have traditionally practiced this weaving?)"),
  ("number_of_weavers", " Number of Active Weavers (Current number of practicing weavers)"),
  ("skill_complexity", "Skill Complexity (Level of skill required and training needed)"),
  ("design_creation", " Design Creation Process (How are traditional designs created and modified?)"),
  ("traditional_uses", "Traditional Uses (How is this textile traditionally used in society?)"),
  ("ceremonial_significance", "Ceremonial Significance (Use in weddings, festivals, or religious ceremonies)"),
  ("social_status", "Social Status Indicators ( Does this textile indicate social status or community membership?)"),
  ("production_per_weaver", " Production per Weaver (Average monthly production per weaver)"),
  ("raw_material_costs", " Raw Material Costs ( Cost and availability of raw materials)"),
  ("market_demand", " Market Demand ( Current market demand and customer base) ")]
def naturalMethodologySpec : List (String × String) := [
  ("source_plant", "Source Plant/Material (Scientific name and description of source plant or natural material)"),
  ("collection_season", "Collection Season [ When is the raw material collected? (months/seasons)]"),
  ("collection_methods", " Collection Methods  (Traditional methods of collection or harvesting)"),
  ("processing_technique", "Processing Technique (How is the final product extracted or processed?)"),
  ("traditional_equipment_natural", "Traditional Equipment (Tools and equipment used in traditional processing)"),
  ("quality_assessment", " Quality Assessment (How is quality determined and maintained?)"),
  ("habitat_requirements", " Habitat Requirements (Specific environmental conditions needed for the source material)"),
  ("sustainable_practices", "Sustainable Practices (Traditional conservation and sustainability practices)"),
  ("seasonal_variations", "Seasonal Variations ( How do seasonal changes affect product quality?)"),
  ("geographic_specificity", "Geographic Specificity (Why can this product only be obtained from this specific region?)"),
  ("indigenous_knowledge", "Indigenous Knowledge (Traditional knowledge systems associated with this product)"),
  ("community_guardians", "Community Guardians ( Which communities have traditionally been guardians of this knowledge?)"),
  ("traditional_applications", "Traditional Applications (Detailed traditional uses in medicine, cosmetics, or daily life)"),
  ("yield_per_collection", "Yield per Collection ( Typical quantity obtained per collection/processing cycle)")]
def naturalResultsSpec : List (String × String) := [
  ("active_compounds", " Active Compounds (Key chemical compounds or active ingredients)"),
  ("physical_properties", "Physical Properties (Color, consistency, aroma, and physical characteristics)"),
  ("traditional_uses_natural", "Traditional Uses (How has this product been traditionally used?)"),
  ("market_applications", " Market Applications ( Modern commercial applications and uses)"),
  ("value_addition", "Value Addition Potential (Opportunities for processing into higher-value products)")]
/-- The six fixed sections of the mapped document. -/
structure SectionedDocument where
  abstract : Dict
  introduction : Dict
  literature_review : Dict
  methodology : Dict
  results : Dict
  conclusion : Dict
deriving DecidableEq
/-- The category-invariant base document of `extract_paper_sections_data`. -/
def baseDoc (r : Resp) : SectionedDocument where
  abstract := mkSection abstractSpec r
  introduction := mkSection introductionSpec r
  literature_review := mkSection literatureReviewSpec r
  methodology := mkSection methodologySpec r
  results := mkSection resultsSpec r
  conclusion := mkSection conclusionSpec r
/-- The category-specific `if 'Agricultural' in category: ... elif ...` chain
that updates the methodology and results sections of the base document. -/
def extendSections (r : Resp) (base : SectionedDocument) (category : String) :
    SectionedDocument :=
  if pyInStr "Agricultural" category then
    { base with
      methodology := pyUpdate base.methodology (mkSection agMethodologySpec r)
      results := pyUpdate base.results (mkSection agResultsSpec r) }
  else if pyInStr "Food" category then
    { base with
      methodology := pyUpdate base.methodology (mkSection foodMethodologySpec r)
      results := pyUpdate base.results (mkSection foodResultsSpec r) }
  else if pyInStr "Handicraft" category then
    { base with
      methodology := pyUpdate base.methodology (mkSection handicraftMethodologySpec r)
      results := pyUpdate base.results (mkSection handicraftResultsSpec r) }
  else if pyInStr "Textile" category then
    { base with
      methodology := pyUpdate base.methodology (mkSection textileMethodologySpec r)
      results := pyUpdate base.results (mkSection textileResultsSpec r) }
  else if pyInStr "Natural" category then
    { base with
      methodology := pyUpdate base.methodology (mkSection naturalMethodologySpec r)
      results := pyUpdate base.results (mkSection naturalResultsSpec r) }
  else base
/-- `DataProcessor.extract_paper_sections_data` on the latest response. -/
def extract_paper_sections_data (r : Resp) : SectionedDocument :=
  extendSections r (baseDoc r) (pyStrip (respGet r categoryLabelFull))
/-- The `category_map` of `GoogleFormProcessor._extract_product_category`. -/
def category_map (code : String) : Option String :=
  List.lookup code [
    ("1", "Agricultural Products"),
    ("2", "Food & Beverages"),
    ("3", "Handicrafts & Artisanal Products"),
    ("4", "Textiles & Fabrics"),
    ("5", "Natural Products & Extracts")]
/-- `GoogleFormProcessor._extract_product_category`: look up
`str(row.get("Select Product Category", ""))` in the numeric code table,
defaulting to `"Unknown"`. -/
def extract_product_category (row : Row) : String :=
  (category_map (pyStr (rowGet row "Select Product Category" (some "")))).getD "Unknown"
/-- Materialize a literal dict of `str(row.get(label, ""))` entries. -/
def mkRowSection (spec : List (String × String)) (row : Row) : Dict :=
  spec.map fun p => (p.1, pyStr (rowGet row p.2 (some "")))
def applicantInfoSpec : List (String × String) := [
  ("applicant_name", "Applicant/Orginization Name"),
  ("applicant_type", "Applicant Type (Can be more than one option)"),
  ("gmail_id", "Gmail ID"),
  ("phone_number", "Phone Number (With country code)"),
  ("complete_address", "Complete Address")]
def productInfoSpec : List (String × String) := [
  ("product_name", "Product Name ( Exact name you want to register for GI protection)"),
  ("common_names", "Common/Local Names (All alternative names by which this product is known locally)")]
def geographicInfoSpec : List (String × String) := [
  ("region_of_origin", "Region of Origin"),
  ("state_province", "State/Province (Primary state or province of production)"),
  ("production_districts", "Production Districts (List all districts involved in traditional production)"),
  ("specific_boundaries", "Specific Geographic Boundaries [Exact boundaries of the geographical area (villages, taluks, coordinates if available)]"),
  ("geographic_connection", "Why is this product special to this region? (Explain the connection between geography and product uniqueness)")]
def agriculturalDataSpec : List (String × String) := [
  ("crop_plant_type", "Crop/Plant Type (Scientific name and variety of the plant/crop)"),
  ("physical_characteristics", "Physical Characteristics( Describe size, color, shape, texture of the agricultural product )"),
  ("taste_aroma", "Taste & Aroma Profile (Detailed description of taste, flavor, and aromatic properties)"),
  ("nutritional_properties", "Nutritional Properties (Nutritional content, vitamins, minerals, and health benefits)"),
  ("harvest_season", "Harvest Season [When is the product typically harvested? (months/seasons)]"),
  ("soil_requirements", "Soil Requirements (Specific soil type, pH, and conditions needed for cultivation)"),
  ("climate_requirements", "Climate Requirements ( Temperature, rainfall, humidity requirements for optimal growth )"),
  ("traditional_methods", "Traditional Growing Methods (Traditional cultivation practices passed down through generations)"),
  ("seeds_planting", "Seeds/Planting Material (Source and characteristics of traditional seeds or planting material used)"),
  ("pest_control", "Natural Pest Control (Traditional methods of pest and disease management)"),
  ("post_harvest", "Post-Harvest Processing [Steps taken immediately after harvest (drying, cleaning, sorting)]"),
  ("storage_methods", "Traditional Storage Methods ( How the product is traditionally stored and preserved)"),
  ("quality_grading", "Quality Grading (Traditional methods of quality assessment and grading)"),
  ("average_yield", "Average Yield per Acre (Typical production quantity per unit area)"),
  ("total_production", "Total Annual Production (Total quantity produced annually in the region)"),
  ("number_farmers", "Number of Farmers Involved (Approximate number of farmers/producers in the region)"),
  ("price_premium", "Price Premium ( How much more does this product sell for compared to similar products from other regions?)"),
  ("export_markets", "Export Markets (Countries/regions where this product is exported)"),
  ("farmer_income", "Farmer Income Impact (How has this product improved farmer incomes and livelihoods?)")]
def foodBeverageDataSpec : List (String × String) := [
  ("food_category", "Food Category"),
  ("main_ingredients", "Main Ingredients (List all primary ingredients and their sources)"),
  ("taste_profile", "Taste Profile (Detailed description of taste, texture, and sensory characteristics)"),
  ("nutritional_benefits", "Nutritional Benefits (Health benefits, nutritional content, medicinal properties if any)"),
  ("shelf_life", "Shelf Life ( How long does the product stay fresh under normal conditions?)"),
  ("traditional_recipe", "Traditional Recipe ( Detailed traditional recipe or preparation method )"),
  ("special_techniques", "Secret/Special Techniques (Any unique techniques or secrets that make this product special)"),
  ("traditional_equipment", "Traditional Equipment ( Special equipment, utensils, or tools used in preparation)"),
  ("aging_process", "Aging/Fermentation Process (If applicable, describe aging, fermentation, or curing processes)"),
  ("quality_control", "Quality Control in Preparation ( How is quality maintained during preparation?)"),
  ("local_materials", "Local Raw Materials (Which ingredients must come from the specific geographical region?)"),
  ("seasonal_availability", "Seasonal Availability (How does seasonality affect availability of ingredients and production?)"),
  ("traditional_suppliers", "Traditional Suppliers (Who are the traditional suppliers of raw materials?)"),
  ("festival_use", "Festival/Ceremonial Use (Is this food associated with specific festivals, ceremonies, or cultural events?)"),
  ("consumption_patterns", "Traditional Consumption Patterns  (How and when is this food traditionally consumed?)"),
  ("cultural_stories", "Cultural Stories/Legends (Any cultural stories, legends, or folklore associated with this food)"),
  ("daily_production", "Daily/Monthly Production  (Typical production quantities per day or month)"),
  ("number_producers", "Number of Traditional Producers (How many families/businesses are involved in traditional production?)"),
  ("market_reach", "Market Reach (Local, regional, national, or international market presence)")]
def handicraftDataSpec : List (String × String) := [
  ("craft_type", "Type of Handicraft"),
  ("dimensions", "Product Dimensions (Typical size and dimensions of the finished product)"),
  ("materials", "Materials Used  (All raw materials used and their local sources)"),
  ("design_features", "Distinctive Design Features (What makes the design unique to this region?)"),
  ("functional_use", "Functional Use ( How is this product used in daily life or special occasions?)"),
  ("manufacturing_process", "Manufacturing Process (Step-by-step description of the traditional making process)"),
  ("special_tools", "Special Tools & Equipment (Traditional tools and equipment used by artisans)"),
  ("skill_requirements", "Skill Requirements (What specific skills and training do artisans need?)"),
  ("time_to_create", "Time to Create (How long does it take to create one piece?)"),
  ("design_patterns", "Design Patterns/Motifs (Traditional patterns, motifs, or designs that are characteristic of the region)"),
  ("number_artisans", "Number of Active Artisans (How many artisans are currently practicing this craft?)"),
  ("community_background", "Community Background ( Which communities/families have traditionally practiced this craft?)"),
  ("skill_transfer", "Skill Transfer Method (How are skills passed down to new generations?)"),
  ("training_period", "Training Period (How long does it take to train a new artisan?)"),
  ("historical_significance", "Historical Significance (Historical importance and cultural significance of this craft)"),
  ("traditional_uses", "Traditional Uses in Society  (How was/is this product used in traditional society?)"),
  ("symbolic_meaning", "Symbolic Meaning (Any symbolic or spiritual significance of the craft)"),
  ("production_capacity", "Production Capacity (How many pieces can an artisan produce per month?)"),
  ("price_range", "Price Range  (Typical price range for different sizes/types)"),
  ("market_challenges", "Market Challenges ( What challenges do artisans face in marketing their products?)")]
def textileDataSpec : List (String × String) := [
  ("textile_type", "Type of Textile*"),
  ("fiber_type", "Fiber Type (Thread count, weight, dimensions, thickness specifications)"),
  ("color_palette", "Color Palette (Traditional colors used and sources of natural dyes)"),
  ("pattern_characteristics", "Pattern/Design Characteristics (Distinctive patterns, motifs, or design elements)"),
  ("loom_type", "Traditional Loom Type ( Type of loom used and its characteristics)"),
  ("weaving_technique", "Weaving Technique ( Specific weaving techniques and methods used)"),
  ("thread_preparation", "Thread Preparation (How are threads prepared, spun, and treated before weaving?)"),
  ("dyeing_process", "Dyeing Process (Traditional dyeing methods and natural dye sources)"),
  ("time_to_complete", "Time to Complete ( How long does it take to complete one piece?)"),
  ("weaver_community", "Weaver Community ( Which communities have traditionally practiced this weaving?)"),
  ("number_weavers", "Number of Active Weavers (Current number of practicing weavers)"),
  ("skill_complexity", "Skill Complexity (Level of skill required and training needed)"),
  ("design_creation", "Design Creation Process (How are traditional designs created and modified?)"),
  ("traditional_uses", "Traditional Uses (How is this textile traditionally used in society?)"),
  ("ceremonial_significance", "Ceremonial Significance (Use in weddings, festivals, or religious ceremonies)"),
  ("social_status", "Social Status Indicators ( Does this textile indicate social status or community membership?)"),
  ("production_per_weaver", "Production per Weaver (Average monthly production per weaver)"),
  ("raw_material_costs", "Raw Material Costs ( Cost and availability of raw materials)"),
  ("market_demand", "Market Demand ( Current market demand and customer base)")]
def naturalProductDataSpec : List (String × String) := [
  ("product_type", "Product Type"),
  ("source_plant", "Source Plant/Material (Scientific name and description of source plant or natural material)"),
  ("active_compounds", "Active Compounds (Key chemical compounds or active ingredients)"),
  ("physical_properties", "Physical Properties (Color, consistency, aroma, and physical characteristics)"),
  ("traditional_uses", "Traditional Uses (How has this product been traditionally used?)"),
  ("collection_season", "Collection Season [ When is the raw material collected? (months/seasons)]"),
  ("collection_methods", "Collection Methods  (Traditional methods of collection or harvesting)"),
  ("processing_technique", "Processing Technique (How is the final product extracted or processed?)"),
  ("traditional_equipment", "Traditional Equipment (Tools and equipment used in traditional processing)"),
  ("quality_assessment", "Quality Assessment (How is quality determined and maintained?)"),
  ("habitat_requirements", "Habitat Requirements (Specific environmental conditions needed for the source material)"),
  ("sustainable_practices", "Sustainable Practices (Traditional conservation and sustainability practices)"),
  ("seasonal_variations", "Seasonal Variations ( How do seasonal changes affect product quality?)"),
  ("geographic_specificity", "Geographic Specificity (Why can this product only be obtained from this specific region?)"),
  ("indigenous_knowledge", "Indigenous Knowledge (Traditional knowledge systems associated with this product)"),
  ("community_guardians", "Community Guardians ( Which communities have traditionally been guardians of this knowledge?)"),
  ("traditional_applications", "Traditional Applications (Detailed traditional uses in medicine, cosmetics, or daily life)"),
  ("yield_per_collection", "Yield per Collection ( Typical quantity obtained per collection/processing cycle)"),
  ("market_applications", "Market Applications ( Modern commercial applications and uses)"),
  ("value_addition", "Value Addition Potential (Opportunities for processing into higher-value products)")]
def historicalEvidenceSpec : List (String × String) := [
  ("production_history", "Production History (How long has this product been made in this region?)"),
  ("historical_documents", "Historical Documents (Any historical references, documents, or evidence)"),
  ("cultural_evolution", "Cultural Evolution  (How has production evolved while maintaining traditional character?)")]
def economicImpactSpec : List (String × String) := [
  ("producer_income", "Producer Income (Average annual income per producer from this product )"),
  ("employment_generation", "Employment Generation (Number of people employed directly and indirectly)"),
  ("regional_impact", "Regional Economic Impact (Overall economic contribution to the region)"),
  ("current_challenges", "Current Challenges (Main challenges facing production and marketing)"),
  ("growth_potential", "Growth Potential (Potential for expanding production and markets)"),
  ("support_needed", "Support Needed ( What support is needed for development?)")]
def supportingDocumentsSpec : List (String × String) := [
  ("product_photos", "Product Photos ( High-quality photos of the product)"),
  ("process_photos", "Production Process Photos (Photos showing production/making process)"),
  ("supporting_docs", "Supporting Documents (Any certificates, awards, research papers, or other evidence)"),
  ("unique_id", "Unique Application ID [Enter a unique identifier for your application (used for file naming)]")]
/-- `GoogleFormProcessor._extract_category_specific_data`. -/
def extract_category_specific_data (row : Row) : Dict :=
  let category := extract_product_category row
  if category = "Agricultural Products" then mkRowSection agriculturalDataSpec row
  else if category = "Food & Beverages" then mkRowSection foodBeverageDataSpec row
  else if category = "Handicrafts & Artisanal Products" then mkRowSection handicraftDataSpec row
  else if category = "Textiles & Fabrics" then mkRowSection textileDataSpec row
  else if category = "Natural Products & Extracts" then mkRowSection naturalProductDataSpec row
  else []
/-- The structured form data assembled by `GoogleFormProcessor.extract_form_data`. -/
structure FormData where
  applicant_info : Dict
  product_info : Dict
  geographic_info : Dict
  product_category : String
  category_specific_data : Dict
  historical_evidence : Dict
  economic_impact : Dict
  supporting_documents : Dict
deriving DecidableEq
def buildFormData (row : Row) : FormData where
  applicant_info := mkRowSection applicantInfoSpec row
  product_info := mkRowSection productInfoSpec row
  geographic_info := mkRowSection geographicInfoSpec row
  product_category := extract_product_category row
  category_specific_data := extract_category_specific_data row
  historical_evidence := mkRowSection historicalEvidenceSpec row
  economic_impact := mkRowSection economicImpactSpec row
  supporting_documents := mkRowSection supportingDocumentsSpec row
/-- The result of `GoogleFormProcessor.extract_form_data`: the empty dict `{}`
when no data is loaded or it is empty, the structured dict otherwise. -/
inductive FormResult
  | emptyDict
  | formData (fd : FormData)
deriving DecidableEq
/-- `GoogleFormProcessor.extract_form_data`: `self.data` is `none` when no file
has been loaded; otherwise it is the list of rows of the loaded table, and only
`self.data.iloc[0]` is processed. -/
def extract_form_data (data : Option (List Row)) : FormResult :=
  match data with
  | none => .emptyDict
  | some [] => .emptyDict
  | some (row :: _) => .formData (buildFormData row)
/-! ## Collaborator failure model

`GoogleSheetsProcessor.get_form_responses` turns a 403 `HttpError` into a
`PermissionError`, any other `HttpError` into a generic
`Exception("Google Sheets API error: ...")`, an empty sheet into a
`ValueError` that its own blanket handler rewraps as
`Exception("Error loading form responses: ...")`, and every other failure into
the same rewrapped `Exception`. `AcademicGenerator.generate_section` has no
handler: a text-generation failure propagates unchanged. The route handler of
`ui/server.py` answers a `PermissionError` with HTTP 403 and every other
exception with the generic HTTP 500 message. -/

/-- The two kinds of exception that reach the route handler. -/
inductive PyErr
  | permissionError (msg : String)
  | exception (msg : String)
deriving DecidableEq
/-- Outcomes of the raw `spreadsheets().values().get(...).execute()` call. -/
inductive SheetsFetch
  | ok (values : List (List String))
  | httpError (status : Nat) (msg : String)
  | failure (msg : String)
/-- `GoogleSheetsProcessor.get_form_responses`, with the sheet contents or the
API failure as an explicit argument and the service-account email as a
parameter. -/
def get_form_responses (email : String) (fetch : SheetsFetch) :
    Except PyErr (List (List String)) :=
  match fetch with
  | .ok values =>
      if values.isEmpty then
        .error (.exception ("Error loading form responses: " ++ "No data found in the sheet"))
      else .ok values
  | .httpError status msg =>
      if status = 403 then
        .error (.permissionError ("Access denied. Please share the spreadsheet with: " ++ email))
      else .error (.exception ("Google Sheets API error: " ++ msg))
  | .failure msg => .error (.exception ("Error loading form responses: " ++ msg))
/-- `AcademicGenerator.generate_section`, with the generative API call's
outcome as an explicit argument; there is no exception handler, so a failure
propagates as it is. -/
def generate_section (api : Except String String) : Except PyErr String :=
  match api with
  | .ok text => .ok (pyStrip text)
  | .error msg => .error (.exception msg)
/-- The `except PermissionError` / `except Exception` dispatch of
`generate_paper_from_sheets` in `ui/server.py`: HTTP status and error label. -/
def serverRespond (e : PyErr) : Nat × String :=
  match e with
  | .permissionError _ =>
      (403, "Permission denied. Please share the Google Sheet with the service account email.")
  | .exception msg => (500, "Failed to process Google Sheets data: " ++ msg)
def rowCrop : Row := [
  ("Select Product Category", some "Agricultural Products"),
  ("Crop/Plant Type (Scientific name and variety of the plant/crop)", some "Mangifera indica")]
def methodologyExtensionKeys : List String :=
  (agMethodologySpec ++ foodMethodologySpec ++ handicraftMethodologySpec ++
    textileMethodologySpec ++ naturalMethodologySpec).map Prod.fst
def resultsExtensionKeys : List String :=
  (agResultsSpec ++ foodResultsSpec ++ handicraftResultsSpec ++
    textileResultsSpec ++ naturalResultsSpec).map Prod.fst
def rowNoCategory : Row := [("Product Name ( Exact name you want to register for GI protection)", some "Alphonso Mango")]
def respNoCategory : Resp := [(" Product Name ( Exact name you want to register for GI protection)", "Alphonso Mango")]
def rowCode3 : Row := [("Select Product Category", some "3")]
def rowFreeText : Row := [("Select Product Category", some "Handicrafts & Artisanal Products")]
def respCode3 : Resp := [
  (categoryLabelFull, "3"),
  (" Materials Used  (All raw materials used and their local sources)", "Cane and bamboo")]
def respFreeText : Resp := [
  (categoryLabelFull, "Handicrafts & Artisanal Products"),
  (" Materials Used  (All raw materials used and their local sources)", "Cane and bamboo")]
def cropLabel : String := "Crop/Plant Type (Scientific name and variety of the plant/crop)"
def respMango : Resp := [
  (categoryLabelFull, "Agricultural Products"),
  (giNameLabel, "Alphonso Mango"),
  (" Region of Origin", "Ratnagiri"),
  (cropLabel, "Mangifera indica")]
def annualProductionLabel : String :=
  "Total Annual Production (Total quantity produced annually in the region)"
def respHandiAnnual : Resp := [
  (categoryLabelFull, "Handicrafts & Artisanal Products"),
  (annualProductionLabel, "500 tonnes")]
def rowHandiAnnual : Row := [
  ("Select Product Category", some "Handicrafts & Artisanal Products"),
  (annualProductionLabel, some "500 tonnes")]
def baseSpecs : List (List (String × String)) :=
  [abstractSpec, introductionSpec, literatureReviewSpec, methodologySpec,
    resultsSpec, conclusionSpec]
/-- A registry label counts as appearing in the built document when, after
stripping outer whitespace, it occurs as a substring of some label read by one
of the six base section specs (this tolerates the leading-space and
trailing-text drift of the source's literal labels). -/
def labelAppears (l : String) : Bool :=
  baseSpecs.any fun spec => spec.any fun p => isSubL (pyStripL l.data) (pyStripL p.2.data)
def respTimestamp : Resp := [
  (categoryLabelFull, "Agricultural Products"),
  ("Timestamp", "2024-05-01 10:00:00")]

/-! ## Theorems -/

theorem toNat_ofNat_of_valid {n : Nat} (h : n < 55296) : (Char.ofNat n).toNat = n := by
  have hv : Nat.isValidChar n := Or.inl h
  rw [Char.ofNat, dif_pos hv]
  simp [Char.ofNatAux, Char.toNat, UInt32.toNat]
theorem isUpper_iff (c : Char) : c.isUpper = true ↔ 65 ≤ c.toNat ∧ c.toNat ≤ 90 := by
  simp only [Char.isUpper, Bool.and_eq_true, decide_eq_true_eq, ge_iff_le]
  rw [UInt32.le_def, UInt32.le_def]
  simp [BitVec.le_def, Char.toNat, UInt32.toNat]
theorem pyLowerChar_not_upper (c : Char) : (pyLowerChar c).isUpper = false := by
  unfold pyLowerChar
  by_cases h : c.isUpper = true
  · rw [if_pos h]
    rw [isUpper_iff] at h
    rw [Bool.eq_false_iff]
    intro hu
    rw [isUpper_iff] at hu
    rw [toNat_ofNat_of_valid (by omega)] at hu
    omega
  · rw [if_neg h]
    exact Bool.eq_false_iff.mpr h
theorem mem_pyReplaceC {c a b : Char} {l : List Char} (h : c ∈ pyReplaceC a b l) :
    c = b ∨ (c ∈ l ∧ c ≠ a) := by
  unfold pyReplaceC at h
  rw [List.mem_map] at h
  obtain ⟨d, hd, hc⟩ := h
  by_cases hda : d = a
  · left
    rw [← hc, if_pos hda]
  · right
    rw [← hc, if_neg hda]
    exact ⟨hd, hda⟩
theorem mem_pyDropC {c a : Char} {l : List Char} (h : c ∈ pyDropC a l) :
    c ∈ l ∧ c ≠ a := by
  unfold pyDropC at h
  rw [List.mem_filter] at h
  obtain ⟨hm, hne⟩ := h
  exact ⟨hm, by simpa using hne⟩
theorem mem_pyReplaceS {c a : Char} {r l : List Char} (h : c ∈ pyReplaceS a r l) :
    c ∈ r ∨ (c ∈ l ∧ c ≠ a) := by
  induction l with
  | nil => simp [pyReplaceS] at h
  | cons d cs ih =>
    simp only [pyReplaceS, List.mem_append] at h
    rcases h with h | h
    · by_cases hda : d = a
      · rw [if_pos hda] at h
        exact Or.inl h
      · rw [if_neg hda] at h
        simp only [List.mem_singleton] at h
        subst h
        exact Or.inr ⟨List.mem_cons_self _ _, hda⟩
    · rcases ih h with h' | ⟨hm, hne⟩
      · exact Or.inl h'
      · exact Or.inr ⟨List.mem_cons_of_mem _ hm, hne⟩
theorem mem_pyLower {c : Char} {l : List Char} (h : c ∈ pyLower l) :
    c.isUpper = false := by
  unfold pyLower at h
  rw [List.mem_map] at h
  obtain ⟨d, _, hc⟩ := h
  rw [← hc]
  exact pyLowerChar_not_upper d
theorem mem_normKeyL {c : Char} {l : List Char} (h : c ∈ normKeyL l) : goodChar c := by
  unfold normKeyL at h
  rcases mem_pyReplaceS h with h1 | ⟨h1, hamp⟩
  · fin_cases h1 <;> exact ⟨by decide, by decide, by decide, by decide, by decide,
      by decide, by decide, by decide, by decide⟩
  rcases mem_pyReplaceC h1 with h2 | ⟨h2, hsl⟩
  · subst h2
    exact ⟨by decide, by decide, by decide, by decide, by decide, by decide,
      by decide, by decide, hamp⟩
  obtain ⟨h3, hq⟩ := mem_pyDropC h2
  obtain ⟨h4, hrb⟩ := mem_pyDropC h3
  obtain ⟨h5, hlb⟩ := mem_pyDropC h4
  obtain ⟨h6, hrp⟩ := mem_pyDropC h5
  obtain ⟨h7, hlp⟩ := mem_pyDropC h6
  rcases mem_pyReplaceC h7 with h8 | ⟨h8, hspace⟩
  · subst h8
    exact ⟨by decide, by decide, hlp, hrp, hlb, hrb, hq, hsl, hamp⟩
  exact ⟨mem_pyLower h8, hspace, hlp, hrp, hlb, hrb, hq, hsl, hamp⟩
theorem pyLower_fixed {l : List Char} (h : ∀ c ∈ l, c.isUpper = false) :
    pyLower l = l := by
  unfold pyLower
  have : ∀ c ∈ l, pyLowerChar c = id c := by
    intro c hc
    unfold pyLowerChar
    rw [if_neg (by rw [h c hc]; simp)]
    rfl
  rw [List.map_congr_left this, List.map_id]
theorem pyReplaceC_fixed {a b : Char} {l : List Char} (h : ∀ c ∈ l, c ≠ a) :
    pyReplaceC a b l = l := by
  unfold pyReplaceC
  have : ∀ c ∈ l, (if c = a then b else c) = id c := by
    intro c hc
    rw [if_neg (h c hc)]
    rfl
  rw [List.map_congr_left this, List.map_id]
theorem pyDropC_fixed {a : Char} {l : List Char} (h : ∀ c ∈ l, c ≠ a) :
    pyDropC a l = l := by
  unfold pyDropC
  rw [List.filter_eq_self]
  intro c hc
  simpa using h c hc
theorem pyReplaceS_fixed {a : Char} {r l : List Char} (h : ∀ c ∈ l, c ≠ a) :
    pyReplaceS a r l = l := by
  induction l with
  | nil => rfl
  | cons d cs ih =>
    simp only [pyReplaceS]
    rw [if_neg (h d (List.mem_cons_self _ _)), ih fun c hc => h c (List.mem_cons_of_mem _ hc)]
    rfl
theorem normKeyL_fixed {l : List Char} (h : ∀ c ∈ l, goodChar c) : normKeyL l = l := by
  unfold normKeyL
  rw [pyLower_fixed fun c hc => (h c hc).1,
    pyReplaceC_fixed fun c hc => (h c hc).2.1,
    pyDropC_fixed fun c hc => (h c hc).2.2.1,
    pyDropC_fixed fun c hc => (h c hc).2.2.2.1,
    pyDropC_fixed fun c hc => (h c hc).2.2.2.2.1,
    pyDropC_fixed fun c hc => (h c hc).2.2.2.2.2.1,
    pyDropC_fixed fun c hc => (h c hc).2.2.2.2.2.2.1,
    pyReplaceC_fixed fun c hc => (h c hc).2.2.2.2.2.2.2.1,
    pyReplaceS_fixed fun c hc => (h c hc).2.2.2.2.2.2.2.2]
theorem normKeyL_idem (l : List Char) : normKeyL (normKeyL l) = normKeyL l :=
  normKeyL_fixed fun _ hc => mem_normKeyL hc
theorem mem_dPut {d : Dict} {k v : String} {p : String × String} (h : p ∈ dPut d k v) :
    p ∈ d ∨ p = (k, v) := by
  unfold dPut at h
  by_cases hk : d.any fun q => q.1 == k
  · rw [if_pos hk, List.mem_map] at h
    obtain ⟨q, hq, hp⟩ := h
    by_cases hqk : q.1 == k
    · rw [if_pos hqk] at hp
      exact Or.inr hp.symm
    · rw [if_neg hqk] at hp
      exact Or.inl (hp ▸ hq)
  · rw [if_neg hk, List.mem_append] at h
    rcases h with h | h
    · exact Or.inl h
    · simp only [List.mem_singleton] at h
      exact Or.inr h
/-- Every entry of the routed dict either was in the accumulator or was
inserted for a selected field whose cell passed the emptiness guard. -/
theorem mem_routed_fold {row : Row} {fields : List String} {init : Dict}
    {p : String × String}
    (h : p ∈ fields.foldl
      (fun d field =>
        let value := rowGet row field (some "")
        if truthyCell value then dPut d (normKey field) (pyStr value) else d)
      init) :
    p ∈ init ∨ ∃ L ∈ fields, p.1 = normKey L ∧
      truthyCell (rowGet row L (some "")) = true ∧ p.2 = pyStr (rowGet row L (some "")) := by
  induction fields generalizing init with
  | nil => exact Or.inl h
  | cons f fs ih =>
    simp only [List.foldl_cons] at h
    rcases ih h with h' | ⟨L, hL, hk⟩
    · by_cases hf : truthyCell (rowGet row f (some "")) = true
      · simp only [hf, if_true] at h'
        rcases mem_dPut h' with h'' | h''
        · exact Or.inl h''
        · exact Or.inr ⟨f, List.mem_cons_self _ _, by rw [h''], hf, by rw [h'']⟩
      · simp only [Bool.not_eq_true] at hf
        simp only [hf, Bool.false_eq_true, if_false] at h'
        exact Or.inl h'
    · exact Or.inr ⟨L, List.mem_cons_of_mem _ hL, hk⟩
theorem lookup_eq_none_of_forall {d : Dict} {k : String}
    (h : ∀ p ∈ d, p.1 ≠ k) : dGet d k = none := by
  unfold dGet
  induction d with
  | nil => rfl
  | cons q qs ih =>
    rw [List.lookup_cons]
    have hq : (k == q.1) = false := by
      rw [beq_eq_false_iff_ne]
      exact fun he => h q (List.mem_cons_self _ _) he.symm
    rw [hq]
    exact ih fun p hp => h p (List.mem_cons_of_mem _ hp)
theorem dGet_dPut_self (d : Dict) (k v : String) : dGet (dPut d k v) k = some v := by
  unfold dGet dPut
  by_cases hany : d.any fun p => p.1 == k
  · rw [if_pos hany]
    induction d with
    | nil => simp at hany
    | cons q d' ih =>
      obtain ⟨a, b⟩ := q
      by_cases hq : a = k
      · simp [List.lookup_cons, hq]
      · have hqb : (a == k) = false := beq_eq_false_iff_ne.mpr hq
        simp only [List.any_cons, hqb, Bool.false_or] at hany
        have hkq : (k == a) = false := beq_eq_false_iff_ne.mpr fun he => hq he.symm
        simp only [List.map_cons, hqb, Bool.false_eq_true, if_false, List.lookup_cons, hkq]
        exact ih hany
  · rw [if_neg hany, List.lookup_append]
    have hnone : d.lookup k = none := by
      rw [List.lookup_eq_none_iff]
      intro p hp
      rw [List.any_eq_true] at hany
      push_neg at hany
      have hh := hany p hp
      simp only [Bool.not_eq_true, beq_eq_false_iff_ne] at hh
      simp only [bne_iff_ne]
      exact fun he => hh he.symm
    rw [hnone, Option.none_or, List.lookup_cons_self]
theorem dGet_dPut_ne (d : Dict) {k' k : String} (v : String) (h : k ≠ k') :
    dGet (dPut d k' v) k = dGet d k := by
  unfold dGet dPut
  by_cases hany : d.any fun p => p.1 == k'
  · rw [if_pos hany]
    clear hany
    induction d with
    | nil => rfl
    | cons q d' ih =>
      obtain ⟨a, b⟩ := q
      by_cases hq : a = k'
      · have hqb : (a == k') = true := beq_iff_eq.mpr hq
        have hkq : (k == a) = false := beq_eq_false_iff_ne.mpr fun he => h (he.trans hq)
        simp only [List.map_cons, hqb, if_true, List.lookup_cons, hkq,
          beq_eq_false_iff_ne.mpr h]
        exact ih
      · have hqb : (a == k') = false := beq_eq_false_iff_ne.mpr hq
        simp only [List.map_cons, hqb, Bool.false_eq_true, if_false, List.lookup_cons]
        by_cases hk : k = a
        · simp [beq_iff_eq.mpr hk]
        · simp only [beq_eq_false_iff_ne.mpr hk]
          exact ih
  · rw [if_neg hany, List.lookup_append]
    have : List.lookup k [(k', v)] = none := by
      simp [List.lookup_cons, beq_eq_false_iff_ne.mpr h]
    rw [this, Option.or_none]
theorem dGet_dPut (d : Dict) (k' v k : String) :
    dGet (dPut d k' v) k = if k = k' then some v else dGet d k := by
  by_cases h : k = k'
  · rw [if_pos h, h, dGet_dPut_self]
  · rw [if_neg h, dGet_dPut_ne d v h]
theorem dGet_pyUpdate (d e : Dict) (k : String) :
    dGet (pyUpdate d e) k = (e.reverse.lookup k).or (dGet d k) := by
  induction e generalizing d with
  | nil => simp [pyUpdate, dGet]
  | cons p e' ih =>
    obtain ⟨a, b⟩ := p
    show dGet (pyUpdate (dPut d a b) e') k = _
    rw [ih, List.reverse_cons, List.lookup_append, Option.or_assoc]
    congr 1
    rw [dGet_dPut]
    by_cases h : k = a
    · simp [List.lookup_cons, beq_iff_eq.mpr h, if_pos h]
    · simp [List.lookup_cons, beq_eq_false_iff_ne.mpr h, if_neg h, dGet]
theorem lookup_mkSection (spec : List (String × String)) (r : Resp) (k : String) :
    (mkSection spec r).lookup k = (spec.lookup k).map (respGet r) := by
  induction spec with
  | nil => rfl
  | cons p spec' ih =>
    obtain ⟨a, b⟩ := p
    by_cases h : k = a
    · simp [mkSection, List.lookup_cons, beq_iff_eq.mpr h]
    · simp only [mkSection, List.map_cons, List.lookup_cons, beq_eq_false_iff_ne.mpr h]
      exact ih
theorem dGet_mkSection (spec : List (String × String)) (r : Resp) (k : String) :
    dGet (mkSection spec r) k = (spec.lookup k).map (respGet r) :=
  lookup_mkSection spec r k
theorem mkSection_reverse (spec : List (String × String)) (r : Resp) :
    (mkSection spec r).reverse = mkSection spec.reverse r :=
  (List.map_reverse _ _).symm
/-- Compute a lookup in an extended section from the two literal spec tables. -/
theorem dGet_update_mkSection (bspec espec : List (String × String)) (r : Resp) (k : String) :
    dGet (pyUpdate (mkSection bspec r) (mkSection espec r)) k =
      ((espec.reverse.lookup k).or (bspec.lookup k)).map (respGet r) := by
  rw [dGet_pyUpdate, mkSection_reverse, lookup_mkSection, dGet_mkSection]
  cases espec.reverse.lookup k <;> simp
/-- The chain of category tests of `extract_paper_sections_data` when none of
the five substrings occurs in the stripped category. -/
theorem extendSections_no_match {r : Resp} {base : SectionedDocument} {category : String}
    (h1 : pyInStr "Agricultural" category = false)
    (h2 : pyInStr "Food" category = false)
    (h3 : pyInStr "Handicraft" category = false)
    (h4 : pyInStr "Textile" category = false)
    (h5 : pyInStr "Natural" category = false) :
    extendSections r base category = base := by
  unfold extendSections
  rw [h1, h2, h3, h4, h5]
  rfl
/-- The `'Agricultural' in category` branch. -/
theorem extendSections_ag {r : Resp} {base : SectionedDocument} {category : String}
    (h1 : pyInStr "Agricultural" category = true) :
    extendSections r base category =
      { base with
        methodology := pyUpdate base.methodology (mkSection agMethodologySpec r)
        results := pyUpdate base.results (mkSection agResultsSpec r) } := by
  unfold extendSections
  rw [h1]
  rfl
/-- The `'Handicraft' in category` branch. -/
theorem extendSections_handicraft {r : Resp} {base : SectionedDocument} {category : String}
    (h1 : pyInStr "Agricultural" category = false)
    (h2 : pyInStr "Food" category = false)
    (h3 : pyInStr "Handicraft" category = true) :
    extendSections r base category =
      { base with
        methodology := pyUpdate base.methodology (mkSection handicraftMethodologySpec r)
        results := pyUpdate base.results (mkSection handicraftResultsSpec r) } := by
  unfold extendSections
  rw [h1, h2, h3]
  rfl
/-- The conclusion section is never touched by the category extensions. -/
theorem extendSections_conclusion (r : Resp) (base : SectionedDocument) (category : String) :
    (extendSections r base category).conclusion = base.conclusion := by
  unfold extendSections
  repeat' split
  all_goals rfl
/-- C5: the key normalizer is a total deterministic function on strings, it is
idempotent, and its output contains no uppercase letter, none of the characters
left parenthesis, right parenthesis, left bracket, right bracket, question
mark, and no slash or ampersand. -/
theorem C5_normalizer_idempotent_and_clean (s : String) :
    normKey (normKey s) = normKey s ∧
    ∀ c ∈ (normKey s).data, c.isUpper = false ∧
      c ≠ '(' ∧ c ≠ ')' ∧ c ≠ '[' ∧ c ≠ ']' ∧ c ≠ '?' ∧ c ≠ '/' ∧ c ≠ '&' := by
  constructor
  · exact congrArg String.mk (normKeyL_idem s.data)
  · intro c hc
    have hg : goodChar c := mem_normKeyL hc
    exact ⟨hg.1, hg.2.2.1, hg.2.2.2.1, hg.2.2.2.2.1, hg.2.2.2.2.2.1,
      hg.2.2.2.2.2.2.1, hg.2.2.2.2.2.2.2.1, hg.2.2.2.2.2.2.2.2⟩
/-- Witness for C5 at the label of the ampersand-and-slash-bearing form field
for taste and aroma. -/
theorem C5_witness :
    normKey (normKey "Taste & Aroma Profile (Detailed description of taste, flavor, and aromatic properties)") =
      normKey "Taste & Aroma Profile (Detailed description of taste, flavor, and aromatic properties)" ∧
    ('t' : Char).isUpper = false ∧
      't' ≠ '(' ∧ 't' ≠ ')' ∧ 't' ≠ '[' ∧ 't' ≠ ']' ∧ 't' ≠ '?' ∧ 't' ≠ '/' ∧ 't' ≠ '&' :=
  ⟨(C5_normalizer_idempotent_and_clean
      "Taste & Aroma Profile (Detailed description of taste, flavor, and aromatic properties)").1,
    (C5_normalizer_idempotent_and_clean
      "Taste & Aroma Profile (Detailed description of taste, flavor, and aromatic properties)").2
      't' (by decide)⟩
/-- C6: every entry of the routed conditional-field mapping has a value that is
neither empty nor whitespace-only, and stems from a cell that was actually
present (never from the missing-value sentinel `NaN`): blank and missing
fields are dropped and never surfaced. -/
theorem C6_router_drops_blank_values (row : Row) (p : String × String)
    (hp : p ∈ extract_conditional_data row) :
    pyStrip p.2 ≠ "" ∧ ∃ L ∈ selectedFields row, rowGet row L (some "") = some p.2 := by
  rcases mem_routed_fold hp with h | ⟨L, hL, _, htruthy, hval⟩
  · simp at h
  · constructor
    · cases hcell : rowGet row L (some "") with
      | none => rw [hcell] at htruthy; simp [truthyCell] at htruthy
      | some s =>
        rw [hcell] at htruthy hval
        simp only [truthyCell, Bool.not_eq_true', List.isEmpty_eq_false] at htruthy
        simp only [pyStr] at hval
        rw [hval]
        intro he
        have := congrArg String.data he
        simp only [pyStrip] at this
        exact htruthy this
    · cases hcell : rowGet row L (some "") with
      | none => rw [hcell] at htruthy; simp [truthyCell] at htruthy
      | some s =>
        rw [hcell] at hval
        exact ⟨L, hL, by rw [hcell, hval]; rfl⟩
/-- Witness for C6: the routed entry for the crop field of a concrete
agricultural row has a non-blank, actually-present value. -/
theorem C6_witness :
    pyStrip ("crop_plant_type_scientific_name_and_variety_of_the_plant_crop", "Mangifera indica").2 ≠ "" ∧
    ∃ L ∈ selectedFields rowCrop,
      rowGet rowCrop L (some "") =
        some ("crop_plant_type_scientific_name_and_variety_of_the_plant_crop", "Mangifera indica").2 :=
  C6_router_drops_blank_values rowCrop _ (by decide)
/-- C9: in every built document the conclusion keys `growth_potential` and
`future_prospects` carry the same value, both being read from the single form
label for growth potential. -/
theorem C9_growth_equals_future (r : Resp) :
    dGet (extract_paper_sections_data r).conclusion "growth_potential" =
      some (respGet r "Growth Potential (Potential for expanding production and markets)") ∧
    dGet (extract_paper_sections_data r).conclusion "future_prospects" =
      some (respGet r "Growth Potential (Potential for expanding production and markets)") := by
  unfold extract_paper_sections_data
  rw [extendSections_conclusion]
  show dGet (mkSection conclusionSpec r) "growth_potential" = _ ∧
    dGet (mkSection conclusionSpec r) "future_prospects" = _
  rw [dGet_mkSection, dGet_mkSection]
  exact ⟨rfl, rfl⟩
/-- C10: `extract_form_data` yields the empty dict when no table is loaded or
the loaded table has no rows, and otherwise depends only on the first row,
ignoring all later rows. -/
theorem C10_first_row_only :
    extract_form_data none = FormResult.emptyDict ∧
    extract_form_data (some []) = FormResult.emptyDict ∧
    ∀ (row : Row) (rest : List Row),
      extract_form_data (some (row :: rest)) = FormResult.formData (buildFormData row) :=
  ⟨rfl, rfl, fun _ _ => rfl⟩
/-- C7: a response whose category field is empty (or missing, which the
`.get` defaults make indistinguishable from empty) classifies to `Unknown`,
routes to no conditional field at all, and is mapped to the category-invariant
base document, with no category-extension key in methodology or results. -/
theorem C7_missing_category_unknown :
    (∀ row : Row, rowGet row "Select Product Category" (some "") = some "" →
      extract_product_category row = "Unknown" ∧ extract_conditional_data row = []) ∧
    (∀ r : Resp, respGet r categoryLabelFull = "" →
      extract_paper_sections_data r = baseDoc r ∧
      (extract_paper_sections_data r).methodology = mkSection methodologySpec r ∧
      (extract_paper_sections_data r).results = mkSection resultsSpec r ∧
      (∀ k ∈ methodologyExtensionKeys,
        dGet (extract_paper_sections_data r).methodology k = none) ∧
      (∀ k ∈ resultsExtensionKeys,
        dGet (extract_paper_sections_data r).results k = none)) := by
  constructor
  · intro row h
    constructor
    · unfold extract_product_category
      rw [h]
      rfl
    · unfold extract_conditional_data selectedFields
      rw [h]
      rfl
  · intro r h
    have hdoc : extract_paper_sections_data r = baseDoc r := by
      unfold extract_paper_sections_data
      rw [h]
      exact extendSections_no_match rfl rfl rfl rfl rfl
    refine ⟨hdoc, by rw [hdoc]; rfl, by rw [hdoc]; rfl, ?_, ?_⟩
    · intro k hk
      rw [hdoc]
      show dGet (mkSection methodologySpec r) k = none
      rw [dGet_mkSection]
      have hnone : methodologySpec.lookup k = none := by
        have : ∀ k ∈ methodologyExtensionKeys, methodologySpec.lookup k = none := by decide
        exact this k hk
      rw [hnone]
      rfl
    · intro k hk
      rw [hdoc]
      show dGet (mkSection resultsSpec r) k = none
      rw [dGet_mkSection]
      have hnone : resultsSpec.lookup k = none := by
        have : ∀ k ∈ resultsExtensionKeys, resultsSpec.lookup k = none := by decide
        exact this k hk
      rw [hnone]
      rfl
/-- Witness for C7 at a concrete response that carries no category field. -/
theorem C7_witness :
    extract_product_category rowNoCategory = "Unknown" ∧
    extract_conditional_data rowNoCategory = [] ∧
    extract_paper_sections_data respNoCategory = baseDoc respNoCategory ∧
    dGet (extract_paper_sections_data respNoCategory).methodology "crop_type" = none :=
  ⟨(C7_missing_category_unknown.1 rowNoCategory rfl).1,
    (C7_missing_category_unknown.1 rowNoCategory rfl).2,
    (C7_missing_category_unknown.2 respNoCategory rfl).1,
    (C7_missing_category_unknown.2 respNoCategory rfl).2.2.2.1 "crop_type" (by decide)⟩
/-- Counterexample to C1: the numeric code `"3"` and the free-text category
`"Handicrafts & Artisanal Products"` do not classify identically. Under the
code-table classifier the code yields the handicraft category while the free
text yields `Unknown`; in the built document, conversely, only the free-text
response receives the handicraft methodology extension. -/
theorem C1_counterexample :
    extract_product_category rowCode3 = "Handicrafts & Artisanal Products" ∧
    extract_product_category rowFreeText = "Unknown" ∧
    extract_product_category rowCode3 ≠ extract_product_category rowFreeText ∧
    dGet (extract_paper_sections_data respCode3).methodology "materials_used" = none ∧
    dGet (extract_paper_sections_data respFreeText).methodology "materials_used" =
      some "Cane and bamboo" :=
  ⟨rfl, rfl, by decide, rfl, rfl⟩
/-- C1 as amended: the two category spellings are recognized by two disjoint
mechanisms. The code-table classifier maps `"3"` to the handicraft category and
the free-text spelling to `Unknown`; the section mapper extends the document
for the free-text spelling only, and leaves a code-`"3"` response entirely at
the category-invariant base. -/
theorem C1_amended :
    (∀ row : Row, rowGet row "Select Product Category" (some "") = some "3" →
      extract_product_category row = "Handicrafts & Artisanal Products") ∧
    (∀ row : Row,
      rowGet row "Select Product Category" (some "") = some "Handicrafts & Artisanal Products" →
      extract_product_category row = "Unknown") ∧
    (∀ r : Resp, respGet r categoryLabelFull = "3" →
      extract_paper_sections_data r = baseDoc r) ∧
    (∀ r : Resp, respGet r categoryLabelFull = "Handicrafts & Artisanal Products" →
      (extract_paper_sections_data r).methodology =
        pyUpdate (mkSection methodologySpec r) (mkSection handicraftMethodologySpec r)) := by
  refine ⟨?_, ?_, ?_, ?_⟩
  · intro row h
    unfold extract_product_category
    rw [h]
    rfl
  · intro row h
    unfold extract_product_category
    rw [h]
    rfl
  · intro r h
    unfold extract_paper_sections_data
    rw [h]
    exact extendSections_no_match rfl rfl rfl rfl rfl
  · intro r h
    unfold extract_paper_sections_data
    rw [h]
    have hstrip : pyStrip "Handicrafts & Artisanal Products" = "Handicrafts & Artisanal Products" := rfl
    rw [hstrip,
      extendSections_handicraft
        (show pyInStr "Agricultural" "Handicrafts & Artisanal Products" = false from rfl)
        (show pyInStr "Food" "Handicrafts & Artisanal Products" = false from rfl)
        (show pyInStr "Handicraft" "Handicrafts & Artisanal Products" = true from rfl)]
    rfl
/-- Witness for C1 as amended, at the two concrete single-field responses. -/
theorem C1_witness :
    extract_product_category rowCode3 = "Handicrafts & Artisanal Products" ∧
    extract_product_category rowFreeText = "Unknown" ∧
    extract_paper_sections_data respCode3 = baseDoc respCode3 ∧
    (extract_paper_sections_data respFreeText).methodology =
      pyUpdate (mkSection methodologySpec respFreeText)
        (mkSection handicraftMethodologySpec respFreeText) :=
  ⟨C1_amended.1 rowCode3 rfl, C1_amended.2.1 rowFreeText rfl,
    C1_amended.2.2.1 respCode3 rfl, C1_amended.2.2.2 respFreeText rfl⟩
/-- The methodology section produced by the agricultural branch. -/
theorem extendSections_ag_methodology {r : Resp} {base : SectionedDocument} {category : String}
    (h1 : pyInStr "Agricultural" category = true) :
    (extendSections r base category).methodology =
      pyUpdate base.methodology (mkSection agMethodologySpec r) := by
  unfold extendSections
  rw [h1, if_pos rfl]
/-- Counterexample to C3: for the Alphonso Mango response the methodology
section of the built document has no key `crop_plant_type`; the agricultural
extension stores the crop field under the key `crop_type` instead. -/
theorem C3_counterexample :
    dGet (extract_paper_sections_data respMango).methodology "crop_plant_type" = none ∧
    respGet respMango cropLabel = "Mangifera indica" :=
  ⟨rfl, rfl⟩
/-- C3 as amended: for any response with category `Agricultural Products` and
crop field `Mangifera indica`, the built methodology maps the key `crop_type`
(not `crop_plant_type`) to `"Mangifera indica"`, and contains neither the
textile key `weaving_technique` nor the handicraft key `craft_type`. -/
theorem C3_amended (r : Resp)
    (hcat : respGet r categoryLabelFull = "Agricultural Products")
    (hcrop : respGet r cropLabel = "Mangifera indica") :
    dGet (extract_paper_sections_data r).methodology "crop_type" = some "Mangifera indica" ∧
    dGet (extract_paper_sections_data r).methodology "weaving_technique" = none ∧
    dGet (extract_paper_sections_data r).methodology "craft_type" = none := by
  unfold extract_paper_sections_data
  rw [hcat]
  have hstrip : pyStrip "Agricultural Products" = "Agricultural Products" := rfl
  rw [hstrip,
    extendSections_ag_methodology
      (show pyInStr "Agricultural" "Agricultural Products" = true from rfl),
    show (baseDoc r).methodology = mkSection methodologySpec r from rfl,
    dGet_update_mkSection, dGet_update_mkSection, dGet_update_mkSection]
  have h1 : (agMethodologySpec.reverse.lookup "crop_type").or (methodologySpec.lookup "crop_type") =
      some cropLabel := rfl
  have h2 : (agMethodologySpec.reverse.lookup "weaving_technique").or
      (methodologySpec.lookup "weaving_technique") = none := rfl
  have h3 : (agMethodologySpec.reverse.lookup "craft_type").or
      (methodologySpec.lookup "craft_type") = none := rfl
  rw [h1, h2, h3]
  refine ⟨?_, rfl, rfl⟩
  show some (respGet r cropLabel) = some "Mangifera indica"
  rw [hcrop]
/-- Witness for C3 as amended at the concrete Alphonso Mango response. -/
theorem C3_witness :
    dGet (extract_paper_sections_data respMango).methodology "crop_type" =
      some "Mangifera indica" ∧
    dGet (extract_paper_sections_data respMango).methodology "weaving_technique" = none ∧
    dGet (extract_paper_sections_data respMango).methodology "craft_type" = none :=
  C3_amended respMango rfl rfl
theorem conditional_sections_subset (s : String) :
    ∀ L ∈ conditional_sections s, L ∈ allConditionalLabels := by
  intro L hL
  unfold conditional_sections at hL
  unfold allConditionalLabels
  simp only [List.mem_append]
  split at hL
  · exact Or.inl (Or.inl (Or.inl (Or.inl hL)))
  · split at hL
    · exact Or.inl (Or.inl (Or.inl (Or.inr hL)))
    · split at hL
      · exact Or.inl (Or.inl (Or.inr hL))
      · split at hL
        · exact Or.inl (Or.inr hL)
        · split at hL
          · exact Or.inr hL
          · simp at hL
theorem selectedFields_subset (row : Row) :
    ∀ L ∈ selectedFields row, L ∈ allConditionalLabels := by
  intro L hL
  unfold selectedFields at hL
  cases hcat : rowGet row "Select Product Category" (some "") with
  | none =>
    rw [hcat] at hL
    simp at hL
  | some s =>
    rw [hcat] at hL
    exact conditional_sections_subset s L hL
set_option maxHeartbeats 1000000 in
theorem nodup_norm_pool_keys : (allConditionalLabels.map normKey).Nodup := by decide
/-- Counterexample to C4: the label for total annual production belongs to the
agricultural conditional pool and not to the handicraft pool, yet the results
section built for a handicraft-classified response carries its value, because
the fixed base of the results section reads that label for every category. -/
theorem C4_counterexample :
    annualProductionLabel ∈ agriculturalFields ∧
    annualProductionLabel ∉ handicraftFields ∧
    dGet (extract_paper_sections_data respHandiAnnual).results "annual_production" =
      some "500 tonnes" := by
  refine ⟨by decide, by decide, ?_⟩
  rfl
/-- C4 as amended: the routed conditional mapping never contains a field of a
conditional pool the selected category does not have, and each category
extension of the section mapper draws only on labels of its own pool; the
category-invariant base of the methodology and results sections, however, does
read labels of other categories' pools (as the counterexample shows). -/
theorem C4_amended :
    (∀ (row : Row) (L : String), L ∈ allConditionalLabels → L ∉ selectedFields row →
      dGet (extract_conditional_data row) (normKey L) = none) ∧
    (∀ l ∈ (agMethodologySpec ++ agResultsSpec).map Prod.snd,
      pyStrip l ∈ agriculturalFields ∧
      pyStrip l ∉ foodFields ++ handicraftFields ++ textileFields ++ naturalFields) ∧
    (∀ l ∈ (foodMethodologySpec ++ foodResultsSpec).map Prod.snd,
      pyStrip l ∈ foodFields ∧
      pyStrip l ∉ agriculturalFields ++ handicraftFields ++ textileFields ++ naturalFields) ∧
    (∀ l ∈ (handicraftMethodologySpec ++ handicraftResultsSpec).map Prod.snd,
      pyStrip l ∈ handicraftFields ∧
      pyStrip l ∉ agriculturalFields ++ foodFields ++ textileFields ++ naturalFields) ∧
    (∀ l ∈ (textileMethodologySpec ++ textileResultsSpec).map Prod.snd,
      pyStrip l ∈ textileFields ∧
      pyStrip l ∉ agriculturalFields ++ foodFields ++ handicraftFields ++ naturalFields) ∧
    (∀ l ∈ (naturalMethodologySpec ++ naturalResultsSpec).map Prod.snd,
      pyStrip l ∈ naturalFields ∧
      pyStrip l ∉ agriculturalFields ++ foodFields ++ handicraftFields ++ textileFields) := by
  refine ⟨?_, by decide, by decide, by decide, by decide, by decide⟩
  intro row L hLall hLsel
  apply lookup_eq_none_of_forall
  intro p hp
  rcases mem_routed_fold hp with h | ⟨M, hM, hkey, _, _⟩
  · simp at h
  · rw [hkey]
    intro he
    have hMall : M ∈ allConditionalLabels := selectedFields_subset row M hM
    have : M = L := List.inj_on_of_nodup_map nodup_norm_pool_keys hMall hLall he
    rw [this] at hM
    exact hLsel hM
/-- Witness for C4 as amended: the router of a handicraft-classified row drops
the agricultural annual-production field, and one agricultural extension label
is checked against its own pool. -/
theorem C4_witness :
    dGet (extract_conditional_data rowHandiAnnual) (normKey annualProductionLabel) = none ∧
    pyStrip cropLabel ∈ agriculturalFields :=
  ⟨C4_amended.1 rowHandiAnnual annualProductionLabel (by decide) (by decide),
    (C4_amended.2.1 cropLabel (by decide)).1⟩
/-- Counterexample to C2: the universal-pool label `Timestamp` appears in no
section of the built document — no section reads a label containing it, no
section key equals its normalized form, and the timestamp value of a concrete
response never surfaces in any section. -/
theorem C2_counterexample :
    labelAppears "Timestamp" = false ∧
    ((extract_paper_sections_data respTimestamp).abstract ++
     (extract_paper_sections_data respTimestamp).introduction ++
     (extract_paper_sections_data respTimestamp).literature_review ++
     (extract_paper_sections_data respTimestamp).methodology ++
     (extract_paper_sections_data respTimestamp).results ++
     (extract_paper_sections_data respTimestamp).conclusion).all
      (fun p => p.1 != normKey "Timestamp" && p.2 != "2024-05-01 10:00:00") = true := by
  constructor
  · decide
  · decide
set_option maxHeartbeats 1600000 in
/-- C2 as amended: of the universal and universal-closing pools, every label
appears (in stripped-substring form) under at least one base section of the
document except exactly the thirteen listed ones: the applicant-contact and
product-naming labels of the universal pool and the photo, declaration and
application-id labels of the closing pool. -/
theorem C2_amended :
    (universal_sections ++ universal_closing_sections).filter (fun l => !labelAppears l) =
      ["Timestamp", "Email Address", "Applicant/Orginization Name",
       "Applicant Type (Can be more than one option)", "Gmail ID",
       "Phone Number (With country code)", "Complete Address",
       "Common/Local Names (All alternative names by which this product is known locally)",
       "Product Photos ( High-quality photos of the product)",
       "Production Process Photos (Photos showing production/making process)",
       "Supporting Documents (Any certificates, awards, research papers, or other evidence)",
       "Applicant Declaration",
       "Unique Application ID [Enter a unique identifier for your application (used for file naming)]"] := by
  decide
/-- Counterexample to C8: a spreadsheet-source failure and a text-generation
failure can surface to the caller as the very same response — both are caught
by the blanket `except Exception` handler and answered with the same HTTP 500
label — so the three failure kinds are not distinguishable to the caller. -/
theorem C8_counterexample :
    get_form_responses "svc@example.com" (SheetsFetch.failure "No data found in the sheet") =
      Except.error (PyErr.exception "Error loading form responses: No data found in the sheet") ∧
    generate_section (Except.error "Error loading form responses: No data found in the sheet") =
      Except.error (PyErr.exception "Error loading form responses: No data found in the sheet") ∧
    serverRespond (PyErr.exception "Error loading form responses: No data found in the sheet") =
      serverRespond (PyErr.exception "Error loading form responses: No data found in the sheet") ∧
    (serverRespond (PyErr.exception "Error loading form responses: No data found in the sheet")).1 =
      500 :=
  ⟨rfl, rfl, rfl, rfl⟩
/-- C8 as amended: no collaborator failure is silently swallowed — every
failing fetch and every failing generation call surfaces as an error to the
route handler — and permission-denied failures are answered with the
distinguishable HTTP 403; all other failure kinds, spreadsheet-source and
text-generation failures alike, share the generic HTTP 500 response. -/
theorem C8_amended :
    (∀ email msg, get_form_responses email (SheetsFetch.failure msg) =
      Except.error (PyErr.exception ("Error loading form responses: " ++ msg))) ∧
    (∀ email msg, get_form_responses email (SheetsFetch.httpError 403 msg) =
      Except.error (PyErr.permissionError
        ("Access denied. Please share the spreadsheet with: " ++ email))) ∧
    (∀ email status msg, status ≠ 403 →
      get_form_responses email (SheetsFetch.httpError status msg) =
        Except.error (PyErr.exception ("Google Sheets API error: " ++ msg))) ∧
    (∀ email, get_form_responses email (SheetsFetch.ok []) =
      Except.error (PyErr.exception "Error loading form responses: No data found in the sheet")) ∧
    (∀ msg, generate_section (Except.error msg) = Except.error (PyErr.exception msg)) ∧
    (∀ msg, (serverRespond (PyErr.permissionError msg)).1 = 403) ∧
    (∀ msg, (serverRespond (PyErr.exception msg)).1 = 500) := by
  refine ⟨fun _ _ => rfl, fun _ _ => rfl, ?_, fun _ => rfl, fun _ => rfl,
    fun _ => rfl, fun _ => rfl⟩
  intro email status msg h
  show (if status = 403 then _ else _) = _
  rw [if_neg h]
/-- Witness for C8 as amended at a concrete non-403 HTTP failure. -/
theorem C8_witness :
    get_form_responses "svc@example.com" (SheetsFetch.httpError 500 "backend error") =
      Except.error (PyErr.exception "Google Sheets API error: backend error") :=
  C8_amended.2.2.1 "svc@example.com" 500 "backend error" (by decide)
